import Mathlib

set_option linter.unusedVariables false

/-!
Verification of the CRMC infusion-chair ROI projection engine
(`src/infusion_roi_app.py`), shallowly embedded over `ℚ`.

The script's calculation section (lines 56-95) is a straight-line pipeline:
capital cost, staffing cost, a utilization-ramp visit loop, per-year
financial list comprehensions, and a discounted-cash-flow loop carrying a
running NPV total.  Python floats are modelled as rationals; `for` loops
that append to lists are modelled as structural recursions that rebuild the
list state year by year.
-/

namespace InfusionROI

/-- The scalar inputs of the script's sidebar (lines 29-54), after the
percentage sliders have been divided by 100 as in the source. -/
structure ScenarioInputs where
  numChairs : ℚ
  sqftPerChair : ℚ
  costPerSqft : ℚ
  equipmentCostPerChair : ℚ
  initialUtilization : ℚ
  maxUtilization : ℚ
  annualGrowth : ℚ
  rnCost : ℚ
  chairsPerRn : ℚ
  shiftsPerDay : ℚ
  supplyCostPerVisit : ℚ
  overheadCost : ℚ
  reimbursement : ℚ
  visitsPerChairPerDay : ℚ
  daysPerYear : ℚ
  forecastYears : ℕ
  discountRate : ℚ

/-- Source line 57: `facility_sqft = num_chairs * sqft_per_chair`. -/
def facility_sqft (i : ScenarioInputs) : ℚ := i.numChairs * i.sqftPerChair

/-- Source line 58: `construction_cost = facility_sqft * cost_per_sqft`. -/
def construction_cost (i : ScenarioInputs) : ℚ := facility_sqft i * i.costPerSqft

/-- Source line 59: `equipment_cost = num_chairs * equipment_cost_per_chair`. -/
def equipment_cost (i : ScenarioInputs) : ℚ := i.numChairs * i.equipmentCostPerChair

/-- Source line 60: `capital_cost_total = construction_cost + equipment_cost`. -/
def capital_cost_total (i : ScenarioInputs) : ℚ := construction_cost i + equipment_cost i

/-- Source line 62: `rn_fte_required = np.ceil((num_chairs / chairs_per_rn) * shifts_per_day)`
(`np.ceil` returns a float, hence the cast back to `ℚ`). -/
def rn_fte_required (i : ScenarioInputs) : ℚ :=
  (⌈(i.numChairs / i.chairsPerRn) * i.shiftsPerDay⌉ : ℤ)

/-- Source line 63: `rn_cost_total = rn_fte_required * rn_cost`. -/
def rn_cost_total (i : ScenarioInputs) : ℚ := rn_fte_required i * i.rnCost

/-- Source line 65: `max_visits = num_chairs * visits_per_chair_per_day * days_per_year`. -/
def max_visits (i : ScenarioInputs) : ℚ := i.numChairs * i.visitsPerChairPerDay * i.daysPerYear

/-- One iteration of the visit-trajectory loop, source lines 71-75: the state
is the pair of lists `(visits_per_year, utilization_by_year)` and the body
appends this year's adjusted visits and utilization. -/
def visitStep (i : ScenarioInputs) (s : List ℚ × List ℚ) (year : ℕ) : List ℚ × List ℚ :=
  let utilization := min (i.initialUtilization * (1 + i.annualGrowth) ^ year) i.maxUtilization
  let adjusted_visits := max_visits i * utilization
  (s.1 ++ [adjusted_visits], s.2 ++ [utilization])

/-- The visit-trajectory loop `for year in range(n)` run for its first `n`
iterations, starting from the empty lists of source lines 68-69. -/
def visitLoopTo (i : ScenarioInputs) : ℕ → List ℚ × List ℚ
  | 0 => ([], [])
  | n + 1 => visitStep i (visitLoopTo i n) n

/-- Source lines 68-75: the `visits_per_year` list after the full loop. -/
def visits_per_year (i : ScenarioInputs) : List ℚ := (visitLoopTo i i.forecastYears).1

/-- Source lines 69-75: the `utilization_by_year` list after the full loop. -/
def utilization_by_year (i : ScenarioInputs) : List ℚ := (visitLoopTo i i.forecastYears).2

/-- Source line 78: `revenue = [v * reimbursement for v in visits_per_year]`. -/
def revenue (i : ScenarioInputs) : List ℚ :=
  (visits_per_year i).map (fun v => v * i.reimbursement)

/-- Source line 79: `supply_costs = [v * supply_cost_per_visit for v in visits_per_year]`. -/
def supply_costs (i : ScenarioInputs) : List ℚ :=
  (visits_per_year i).map (fun v => v * i.supplyCostPerVisit)

/-- Source line 80: `operating_costs = [rn_cost_total + overhead_cost + sc for sc in supply_costs]`. -/
def operating_costs (i : ScenarioInputs) : List ℚ :=
  (supply_costs i).map (fun sc => rn_cost_total i + i.overheadCost + sc)

/-- Source line 81: `net_income = [rev - cost for rev, cost in zip(revenue, operating_costs)]`. -/
def net_income (i : ScenarioInputs) : List ℚ :=
  List.zipWith (fun rev cost => rev - cost) (revenue i) (operating_costs i)

/-- One iteration of the discounted-cash-flow loop, source lines 89-95: the
state is `(total_npv, cumulative_cashflow, discounted_cashflow, cumulative_npv)`;
the body charges the capital cost in year 0, discounts, accumulates the
running NPV and appends to the three lists. -/
def dcfStep (i : ScenarioInputs) (s : ℚ × List ℚ × List ℚ × List ℚ) (year : ℕ) :
    ℚ × List ℚ × List ℚ × List ℚ :=
  let cash := if year > 0 then (net_income i).getD year 0
              else (net_income i).getD year 0 - capital_cost_total i
  let discounted := cash / (1 + i.discountRate) ^ year
  let total := s.1 + discounted
  (total,
   s.2.1 ++ [((net_income i).take (year + 1)).sum - capital_cost_total i],
   s.2.2.1 ++ [discounted],
   s.2.2.2 ++ [total])

/-- The discounted-cash-flow loop run for its first `n` iterations, starting
from the empty state of source lines 84-87. -/
def dcfLoopTo (i : ScenarioInputs) : ℕ → ℚ × List ℚ × List ℚ × List ℚ
  | 0 => (0, [], [], [])
  | n + 1 => dcfStep i (dcfLoopTo i n) n

/-- Source line 87/92: `total_npv` after the full loop. -/
def total_npv (i : ScenarioInputs) : ℚ := (dcfLoopTo i i.forecastYears).1

/-- Source line 94: the `cumulative_cashflow` list after the full loop. -/
def cumulative_cashflow (i : ScenarioInputs) : List ℚ := (dcfLoopTo i i.forecastYears).2.1

/-- Source line 93: the `discounted_cashflow` list after the full loop. -/
def discounted_cashflow (i : ScenarioInputs) : List ℚ := (dcfLoopTo i i.forecastYears).2.2.1

/-- Source line 95: the `cumulative_npv` list after the full loop. -/
def cumulative_npv (i : ScenarioInputs) : List ℚ := (dcfLoopTo i i.forecastYears).2.2.2

/-- Source line 135: `final_npv = cumulative_npv[-1]` (the list is nonempty
whenever `forecastYears ≥ 1`). -/
def final_npv (i : ScenarioInputs) : ℚ := (cumulative_npv i).getLastD 0

/-- Source lines 136-139: the profitability verdict branches on `final_npv > 0`. -/
def is_profitable (i : ScenarioInputs) : Bool := decide (final_npv i > 0)

/-- The input invariants of spec section 3 for the RAMPED engine. -/
def Valid (i : ScenarioInputs) : Prop :=
  1 ≤ i.numChairs ∧ 0 ≤ i.sqftPerChair ∧ 0 ≤ i.costPerSqft ∧
  0 ≤ i.equipmentCostPerChair ∧
  0 ≤ i.initialUtilization ∧ i.initialUtilization ≤ 1 ∧
  0 ≤ i.maxUtilization ∧ i.maxUtilization ≤ 1 ∧
  i.initialUtilization ≤ i.maxUtilization ∧
  0 ≤ i.annualGrowth ∧ 0 ≤ i.rnCost ∧ 0 < i.chairsPerRn ∧ 0 ≤ i.shiftsPerDay ∧
  0 ≤ i.visitsPerChairPerDay ∧ 0 ≤ i.daysPerYear ∧ 0 ≤ i.supplyCostPerVisit ∧
  0 ≤ i.reimbursement ∧ 0 ≤ i.overheadCost ∧
  1 ≤ i.forecastYears ∧ 0 ≤ i.discountRate

instance (i : ScenarioInputs) : Decidable (Valid i) := by
  unfold Valid; infer_instance

/-! ## Closed forms for the loop-built series -/

/-- Closed form of the per-year utilization, source line 72. -/
def utilF (i : ScenarioInputs) (y : ℕ) : ℚ :=
  min (i.initialUtilization * (1 + i.annualGrowth) ^ y) i.maxUtilization

/-- Closed form of the per-year adjusted visits, source line 73. -/
def visitF (i : ScenarioInputs) (y : ℕ) : ℚ := max_visits i * utilF i y

theorem visitLoopTo_eq (i : ScenarioInputs) (n : ℕ) :
    visitLoopTo i n = ((List.range n).map (visitF i), (List.range n).map (utilF i)) := by
  induction n with
  | zero => rfl
  | succ n ih =>
    rw [visitLoopTo, ih]
    simp [visitStep, List.range_succ, visitF, utilF]

theorem visits_per_year_eq (i : ScenarioInputs) :
    visits_per_year i = (List.range i.forecastYears).map (visitF i) := by
  rw [visits_per_year, visitLoopTo_eq]

theorem utilization_by_year_eq (i : ScenarioInputs) :
    utilization_by_year i = (List.range i.forecastYears).map (utilF i) := by
  rw [utilization_by_year, visitLoopTo_eq]

theorem zipWith_map_same {α β γ δ : Type} (g : β → γ → δ) (f₁ : α → β) (f₂ : α → γ)
    (l : List α) :
    List.zipWith g (l.map f₁) (l.map f₂) = l.map (fun x => g (f₁ x) (f₂ x)) := by
  induction l with
  | nil => rfl
  | cons a l ih => simp [ih]

theorem getD_map_range (f : ℕ → ℚ) {y n : ℕ} (h : y < n) :
    (((List.range n).map f).getD y 0) = f y := by
  rw [List.getD_eq_getElem?_getD]
  simp [List.getElem?_map, List.getElem?_range h]

/-- Closed form of the per-year net income. -/
def netIncF (i : ScenarioInputs) (y : ℕ) : ℚ :=
  visitF i y * i.reimbursement -
    (rn_cost_total i + i.overheadCost + visitF i y * i.supplyCostPerVisit)

theorem net_income_eq (i : ScenarioInputs) :
    net_income i = (List.range i.forecastYears).map (netIncF i) := by
  rw [net_income, revenue, operating_costs, supply_costs, visits_per_year_eq]
  rw [List.map_map, List.map_map, List.map_map, zipWith_map_same]
  rfl

/-- Closed form of the per-year cash flow of source line 90 (capital outlay
charged entirely in year 0). -/
def cashF (i : ScenarioInputs) (y : ℕ) : ℚ :=
  if y > 0 then (net_income i).getD y 0
  else (net_income i).getD y 0 - capital_cost_total i

/-- Closed form of the per-year discounted cash flow of source line 91. -/
def discF (i : ScenarioInputs) (y : ℕ) : ℚ := cashF i y / (1 + i.discountRate) ^ y

/-- Closed form of the per-year cumulative undiscounted cash flow of source line 94. -/
def ccF (i : ScenarioInputs) (y : ℕ) : ℚ :=
  ((net_income i).take (y + 1)).sum - capital_cost_total i

/-- Closed form of the per-year cumulative NPV of source lines 92 and 95. -/
def cnpvF (i : ScenarioInputs) (y : ℕ) : ℚ := ((List.range (y + 1)).map (discF i)).sum

theorem dcfLoopTo_eq (i : ScenarioInputs) (n : ℕ) :
    dcfLoopTo i n =
      (((List.range n).map (discF i)).sum,
       (List.range n).map (ccF i),
       (List.range n).map (discF i),
       (List.range n).map (cnpvF i)) := by
  induction n with
  | zero => simp [dcfLoopTo]
  | succ n ih =>
    rw [dcfLoopTo, ih]
    simp [dcfStep, List.range_succ, discF, cashF, ccF, cnpvF]

theorem discounted_cashflow_eq (i : ScenarioInputs) :
    discounted_cashflow i = (List.range i.forecastYears).map (discF i) := by
  rw [discounted_cashflow, dcfLoopTo_eq]

theorem cumulative_cashflow_eq (i : ScenarioInputs) :
    cumulative_cashflow i = (List.range i.forecastYears).map (ccF i) := by
  rw [cumulative_cashflow, dcfLoopTo_eq]

theorem cumulative_npv_eq (i : ScenarioInputs) :
    cumulative_npv i = (List.range i.forecastYears).map (cnpvF i) := by
  rw [cumulative_npv, dcfLoopTo_eq]

theorem total_npv_eq (i : ScenarioInputs) :
    total_npv i = ((List.range i.forecastYears).map (discF i)).sum := by
  rw [total_npv, dcfLoopTo_eq]

/-- Closed form of the per-year revenue. -/
def revF (i : ScenarioInputs) (y : ℕ) : ℚ := visitF i y * i.reimbursement

/-- Closed form of the per-year supply cost. -/
def supF (i : ScenarioInputs) (y : ℕ) : ℚ := visitF i y * i.supplyCostPerVisit

/-- Closed form of the per-year operating cost. -/
def opF (i : ScenarioInputs) (y : ℕ) : ℚ := rn_cost_total i + i.overheadCost + supF i y

theorem revenue_eq (i : ScenarioInputs) :
    revenue i = (List.range i.forecastYears).map (revF i) := by
  rw [revenue, visits_per_year_eq, List.map_map]; rfl

theorem supply_costs_eq (i : ScenarioInputs) :
    supply_costs i = (List.range i.forecastYears).map (supF i) := by
  rw [supply_costs, visits_per_year_eq, List.map_map]; rfl

theorem operating_costs_eq (i : ScenarioInputs) :
    operating_costs i = (List.range i.forecastYears).map (opF i) := by
  rw [operating_costs, supply_costs_eq, List.map_map]; rfl

theorem getLastD_map_range (f : ℕ → ℚ) (m : ℕ) :
    ((List.range (m + 1)).map f).getLastD 0 = f m := by
  rw [List.range_succ, List.map_append]
  simp [List.getLastD_concat]

theorem Valid.init_nonneg {i : ScenarioInputs} (hv : Valid i) : 0 ≤ i.initialUtilization := by
  obtain ⟨-, -, -, -, h, -⟩ := hv
  exact h

theorem Valid.years_pos {i : ScenarioInputs} (hv : Valid i) : 1 ≤ i.forecastYears := by
  obtain ⟨-, -, -, -, -, -, -, -, -, -, -, -, -, -, -, -, -, -, h, -⟩ := hv
  exact h

/-! ## The whole script as one fallible computation -/

/-- The result record assembled by the script: the once-computed scalars, the
per-year series, and the final verdict of lines 135-139. -/
structure ProjectionResult where
  capitalCostTotal : ℚ
  rnFteRequired : ℚ
  rnCostTotalAnnual : ℚ
  utilizationByYear : List ℚ
  visitsPerYear : List ℚ
  revenueByYear : List ℚ
  operatingCostByYear : List ℚ
  netIncomeByYear : List ℚ
  discountedCashflowByYear : List ℚ
  cumulativeCashflowByYear : List ℚ
  cumulativeNpvByYear : List ℚ
  finalNpv : ℚ
  isProfitable : Bool

/-- The calculation section of the script (lines 56-95 and 135-139) as one
function over `ℚ`.  The script performs no input validation.  Two of its
failure modes are modelled as `none`: the `ZeroDivisionError` raised at
line 62 when `chairs_per_rn = 0` and the `IndexError` raised at line 135
(`cumulative_npv[-1]` on an empty list) when `forecast_years < 1`.  The
float-overflow failures of the power expressions at lines 72 and 91 (an
`OverflowError` for enormous forecast horizons or rates) have no counterpart
over `ℚ`, which never overflows, so `compute` can return a result on extreme
inputs where the script would crash; no theorem in this file relies on
`compute` returning `some` outside concrete small-horizon inputs. -/
def compute (i : ScenarioInputs) : Option ProjectionResult :=
  if i.chairsPerRn = 0 then none
  else if i.forecastYears = 0 then none
  else some
    { capitalCostTotal := capital_cost_total i
      rnFteRequired := rn_fte_required i
      rnCostTotalAnnual := rn_cost_total i
      utilizationByYear := utilization_by_year i
      visitsPerYear := visits_per_year i
      revenueByYear := revenue i
      operatingCostByYear := operating_costs i
      netIncomeByYear := net_income i
      discountedCashflowByYear := discounted_cashflow i
      cumulativeCashflowByYear := cumulative_cashflow i
      cumulativeNpvByYear := cumulative_npv i
      finalNpv := final_npv i
      isProfitable := is_profitable i }

/-! ## The three utilization policies

Only the RAMPED variant of the repository is under `src/`; the spec describes
the other two near-duplicate scripts, differing only in the visit trajectory. -/

/-- The three visit-trajectory policies of spec section 4 step 3. -/
inductive UtilizationMode where
  | RAMPED
  | GROWTH_ONLY
  | FIXED_WITH_GROWTH
deriving DecidableEq

/-- Modelled from the spec: the GROWTH_ONLY variant script is not under
`src/`.  Year 0 visits are `numChairs × visitsPerChairPerDay × daysPerYear`;
each subsequent year multiplies the prior year's visits by
`(1 + annualGrowthRate)`; no utilization cap. -/
def growthOnlyLoopTo (i : ScenarioInputs) : ℕ → List ℚ
  | 0 => []
  | n + 1 =>
    let prev := growthOnlyLoopTo i n
    let v := if n = 0 then max_visits i else prev.getLastD 0 * (1 + i.annualGrowth)
    prev ++ [v]

/-- Modelled from the spec: the FIXED_WITH_GROWTH variant script is not under
`src/`.  Year 0 visits are the capacity times the fixed `utilizationRate`;
each subsequent year divides the prior visits by the rate, applies growth and
re-multiplies by the rate (the redundancy is preserved as the spec demands). -/
def fixedLoopTo (i : ScenarioInputs) (rate : ℚ) : ℕ → List ℚ
  | 0 => []
  | n + 1 =>
    let prev := fixedLoopTo i rate n
    let v := if n = 0 then max_visits i * rate
             else prev.getLastD 0 / rate * (1 + i.annualGrowth) * rate
    prev ++ [v]

/-- Modelled from the spec: the single configuration surface of spec
section 4 — callers choose a policy by setting `utilizationMode`; RAMPED
dispatches to the trajectory of the script under `src/`. -/
def visitsTrajectory (mode : UtilizationMode) (rate : ℚ) (i : ScenarioInputs) : List ℚ :=
  match mode with
  | .RAMPED => visits_per_year i
  | .GROWTH_ONLY => growthOnlyLoopTo i i.forecastYears
  | .FIXED_WITH_GROWTH => fixedLoopTo i rate i.forecastYears

/-! ## Concrete inputs for witnesses and counterexamples -/

/-- The script's default sidebar values (percent sliders already divided by
100): 20 chairs, 100 sqft/chair, 400 dollars/sqft, 20000 dollars equipment per
chair, 50 percent initial and 85 percent maximum utilization, 3 percent
growth, 90000 dollars per RN FTE, 4 chairs per RN, 2 shifts, 500 dollars
supplies per visit, 300000 dollars overhead, 1200 dollars reimbursement,
3 visits per chair per day, 260 days, 10 years, 3 percent discount rate. -/
def exInput : ScenarioInputs :=
  { numChairs := 20
    sqftPerChair := 100
    costPerSqft := 400
    equipmentCostPerChair := 20000
    initialUtilization := 1 / 2
    maxUtilization := 17 / 20
    annualGrowth := 3 / 100
    rnCost := 90000
    chairsPerRn := 4
    shiftsPerDay := 2
    supplyCostPerVisit := 500
    overheadCost := 300000
    reimbursement := 1200
    visitsPerChairPerDay := 3
    daysPerYear := 260
    forecastYears := 10
    discountRate := 3 / 100 }

/-- The default inputs with a negative construction cost per square foot:
this violates the non-negativity invariant of spec section 3. -/
def badInput : ScenarioInputs := { exInput with costPerSqft := -400 }

/-! ## Claim theorems -/

/-- Claim C1: the discounted cash flow series is the left-to-right fold of
source lines 89-95: the year-0 cash flow charges the whole capital cost,
`discounted[y] = cash[y] / (1+discountRate)^y`, `cumulativeNpv[y]` is the
running sum of the discounted series up to year `y`, and
`cumulativeCashflow[y]` is the undiscounted cumulative net income minus the
capital cost. -/
theorem c1_dcf_series (i : ScenarioInputs) (hv : Valid i) (y : ℕ)
    (hy : y < i.forecastYears) :
    (discounted_cashflow i).getD y 0 =
      (if y = 0 then (net_income i).getD 0 0 - capital_cost_total i
       else (net_income i).getD y 0) / (1 + i.discountRate) ^ y ∧
    (cumulative_npv i).getD y 0 = ((discounted_cashflow i).take (y + 1)).sum ∧
    (cumulative_cashflow i).getD y 0 =
      ((net_income i).take (y + 1)).sum - capital_cost_total i := by
  refine ⟨?_, ?_, ?_⟩
  · rw [discounted_cashflow_eq, getD_map_range _ hy]
    unfold discF cashF
    rcases Nat.eq_zero_or_pos y with h0 | h0
    · subst h0; simp
    · simp [h0, h0.ne']
  · rw [cumulative_npv_eq, getD_map_range _ hy, discounted_cashflow_eq,
      ← List.map_take, List.take_range, Nat.min_eq_left hy]
    rfl
  · rw [cumulative_cashflow_eq, getD_map_range _ hy]
    rfl

/-- Claim C2: in the script's (RAMPED) trajectory loop, source lines 71-75,
`utilization[y] = min(initialUtilization × (1+annualGrowthRate)^y, maxUtilization)`
and `visits[y] = numChairs × visitsPerChairPerDay × daysPerYear × utilization[y]`. -/
theorem c2_ramped_trajectory (i : ScenarioInputs) (hv : Valid i) (y : ℕ)
    (hy : y < i.forecastYears) :
    (utilization_by_year i).getD y 0 =
      min (i.initialUtilization * (1 + i.annualGrowth) ^ y) i.maxUtilization ∧
    (visits_per_year i).getD y 0 =
      i.numChairs * i.visitsPerChairPerDay * i.daysPerYear *
        (utilization_by_year i).getD y 0 := by
  rw [utilization_by_year_eq, visits_per_year_eq, getD_map_range _ hy, getD_map_range _ hy]
  exact ⟨rfl, rfl⟩

/-- Claim C3: `final_npv` (source line 135) is the last entry of the
cumulative-NPV series, equals the sum of all discounted cash flows, and the
profitability verdict (lines 136-139) holds exactly when it is positive. -/
theorem c3_final_npv (i : ScenarioInputs) (hv : Valid i) :
    final_npv i = (cumulative_npv i).getLastD 0 ∧
    final_npv i = (discounted_cashflow i).sum ∧
    (is_profitable i = true ↔ 0 < final_npv i) := by
  refine ⟨rfl, ?_, ?_⟩
  · obtain ⟨m, hm⟩ : ∃ m, i.forecastYears = m + 1 :=
      ⟨i.forecastYears - 1, (Nat.succ_pred_eq_of_pos hv.years_pos).symm⟩
    rw [final_npv, cumulative_npv_eq, discounted_cashflow_eq, hm,
      getLastD_map_range]
    rfl
  · simp [is_profitable]

/-- Claim C4: source lines 57-60 compute
`capitalCostTotal = numChairs × sqftPerChair × costPerSqft + numChairs × equipmentCostPerChair`
exactly. -/
theorem c4_capital_cost (i : ScenarioInputs) (hv : Valid i) :
    capital_cost_total i =
      i.numChairs * i.sqftPerChair * i.costPerSqft +
        i.numChairs * i.equipmentCostPerChair := rfl

/-- Claim C5: source lines 62-63 compute
`rnFteRequired = ceil((numChairs / chairsPerRn) × shiftsPerDay)` and
`rnCostTotalAnnual = rnFteRequired × rnAnnualCostPerFte` once, and source
line 80 adds the same constant `rnCostTotalAnnual` into every year's
operating cost. -/
theorem c5_staffing (i : ScenarioInputs) (hv : Valid i) :
    rn_fte_required i = ((⌈(i.numChairs / i.chairsPerRn) * i.shiftsPerDay⌉ : ℤ) : ℚ) ∧
    rn_cost_total i = rn_fte_required i * i.rnCost ∧
    ∀ y : ℕ, y < i.forecastYears →
      (operating_costs i).getD y 0 =
        rn_cost_total i + i.overheadCost + (supply_costs i).getD y 0 := by
  refine ⟨rfl, rfl, ?_⟩
  intro y hy
  rw [operating_costs_eq, supply_costs_eq, getD_map_range _ hy, getD_map_range _ hy]
  rfl

/-- Claim C6: source lines 78-81 compute, for every year,
`revenue[y] = visits[y] × reimbursementPerVisit`,
`supplyCost[y] = visits[y] × supplyCostPerVisit`,
`operatingCost[y] = rnCostTotalAnnual + overheadCostAnnual + supplyCost[y]` and
`netIncome[y] = revenue[y] − operatingCost[y]`. -/
theorem c6_per_year_financials (i : ScenarioInputs) (hv : Valid i) (y : ℕ)
    (hy : y < i.forecastYears) :
    (revenue i).getD y 0 = (visits_per_year i).getD y 0 * i.reimbursement ∧
    (supply_costs i).getD y 0 = (visits_per_year i).getD y 0 * i.supplyCostPerVisit ∧
    (operating_costs i).getD y 0 =
      rn_cost_total i + i.overheadCost + (supply_costs i).getD y 0 ∧
    (net_income i).getD y 0 = (revenue i).getD y 0 - (operating_costs i).getD y 0 := by
  rw [revenue_eq, supply_costs_eq, operating_costs_eq, net_income_eq, visits_per_year_eq,
    getD_map_range _ hy, getD_map_range _ hy, getD_map_range _ hy, getD_map_range _ hy,
    getD_map_range _ hy]
  exact ⟨rfl, rfl, rfl, rfl⟩

/-- Claim C7 counterexample: the default inputs with a negative construction
cost per square foot violate the section-3 invariants, yet the script
computes a full result instead of rejecting the call. -/
theorem c7_rejects_invalid_counterexample :
    ¬ Valid badInput ∧ (compute badInput).isSome = true := by
  constructor
  · norm_num [Valid, badInput, exInput]
  · rw [compute]
    norm_num [badInput, exInput]

/-- Claim C7 amended: the engine does not reject invalid input before
computing — for every negative construction cost per square foot `c` (all
other inputs at their script defaults), the input violates the section-3
invariants yet the engine computes a fully populated result, silently
containing a negative construction cost. -/
theorem c7_no_validation (c : ℚ) (hc : c < 0) :
    ¬ Valid { exInput with costPerSqft := c } ∧
    (compute { exInput with costPerSqft := c }).isSome = true ∧
    construction_cost { exInput with costPerSqft := c } < 0 := by
  refine ⟨?_, ?_, ?_⟩
  · intro hv
    obtain ⟨-, -, h, -⟩ := hv
    simp only [exInput] at h
    exact absurd h (not_le.mpr hc)
  · rw [compute]
    norm_num [exInput]
  · have hcc : construction_cost { exInput with costPerSqft := c } = 2000 * c := by
      simp only [construction_cost, facility_sqft, exInput]
      norm_num
    rw [hcc]
    linarith

/-- Witness for the amended C7 at `c = -400`, i.e. at `badInput`. -/
theorem c7_no_validation_witness :
    (-400 : ℚ) < 0 ∧
    (¬ Valid badInput ∧ (compute badInput).isSome = true ∧
     construction_cost badInput < 0) :=
  ⟨by norm_num, c7_no_validation (-400) (by norm_num)⟩

/-- Claim C8: the utilization series of the RAMPED loop is non-decreasing,
never exceeds `maxUtilization`, and is constantly `initialUtilization` when
the growth rate is zero. -/
theorem c8_utilization_monotone (i : ScenarioInputs) (hv : Valid i)
    (hg : 0 ≤ i.annualGrowth) (hle : i.initialUtilization ≤ i.maxUtilization)
    (y : ℕ) :
    (y + 1 < i.forecastYears →
      (utilization_by_year i).getD y 0 ≤ (utilization_by_year i).getD (y + 1) 0) ∧
    (y < i.forecastYears → (utilization_by_year i).getD y 0 ≤ i.maxUtilization) ∧
    (i.annualGrowth = 0 → y < i.forecastYears →
      (utilization_by_year i).getD y 0 = i.initialUtilization) := by
  have h0 : 0 ≤ i.initialUtilization := hv.init_nonneg
  refine ⟨?_, ?_, ?_⟩
  · intro hy1
    have hy : y < i.forecastYears := Nat.lt_of_succ_lt hy1
    rw [utilization_by_year_eq, getD_map_range _ hy, getD_map_range _ hy1]
    unfold utilF
    refine min_le_min ?_ le_rfl
    have hpow : (0 : ℚ) ≤ (1 + i.annualGrowth) ^ y := pow_nonneg (by linarith) y
    rw [pow_succ]
    exact mul_le_mul_of_nonneg_left
      (le_mul_of_one_le_right hpow (by linarith)) h0
  · intro hy
    rw [utilization_by_year_eq, getD_map_range _ hy]
    exact min_le_right _ _
  · intro hg0 hy
    rw [utilization_by_year_eq, getD_map_range _ hy]
    unfold utilF
    rw [hg0]
    simp [min_eq_left hle]

/-- Closed form of the GROWTH_ONLY visit curve. -/
def growF (i : ScenarioInputs) (y : ℕ) : ℚ := max_visits i * (1 + i.annualGrowth) ^ y

theorem growthOnlyLoopTo_eq (i : ScenarioInputs) (n : ℕ) :
    growthOnlyLoopTo i n = (List.range n).map (growF i) := by
  induction n with
  | zero => rfl
  | succ n ih =>
    rcases Nat.eq_zero_or_pos n with h0 | h0
    · subst h0
      simp [growthOnlyLoopTo, growF, List.range_succ]
    · obtain ⟨m, rfl⟩ := Nat.exists_eq_succ_of_ne_zero h0.ne'
      rw [growthOnlyLoopTo, ih, List.range_succ, List.map_append]
      simp [getLastD_map_range, growF, pow_succ, mul_assoc, List.range_succ]

theorem fixedLoopTo_length (i : ScenarioInputs) (rate : ℚ) (n : ℕ) :
    (fixedLoopTo i rate n).length = n := by
  induction n with
  | zero => rfl
  | succ n ih => rw [fixedLoopTo]; simp [ih]

/-- Claim C9: the three utilization policies are selectable through the
single `utilizationMode` dispatch (RAMPED being exactly the trajectory of
the script under `src/`, and each mode producing one visit figure per
forecast year), and in GROWTH_ONLY mode
`visits[y] = visits[0] × (1+annualGrowthRate)^y` with no utilization cap. -/
theorem c9_three_modes (i : ScenarioInputs) (rate : ℚ) (y : ℕ)
    (hy : y < i.forecastYears) :
    visitsTrajectory UtilizationMode.RAMPED rate i = visits_per_year i ∧
    (∀ m : UtilizationMode, (visitsTrajectory m rate i).length = i.forecastYears) ∧
    (visitsTrajectory UtilizationMode.GROWTH_ONLY rate i).getD y 0 =
      (visitsTrajectory UtilizationMode.GROWTH_ONLY rate i).getD 0 0 *
        (1 + i.annualGrowth) ^ y := by
  have h0 : 0 < i.forecastYears := Nat.lt_of_le_of_lt (Nat.zero_le y) hy
  refine ⟨rfl, ?_, ?_⟩
  · intro m
    cases m
    · simp [visitsTrajectory, visits_per_year_eq]
    · simp [visitsTrajectory, growthOnlyLoopTo_eq]
    · simp [visitsTrajectory, fixedLoopTo_length]
  · show (growthOnlyLoopTo i i.forecastYears).getD y 0 =
      (growthOnlyLoopTo i i.forecastYears).getD 0 0 * (1 + i.annualGrowth) ^ y
    rw [growthOnlyLoopTo_eq, getD_map_range _ hy, getD_map_range _ h0]
    simp [growF]

/-- Claim C10: year-0 discounting is the identity for any discount rate —
`discounted[0] = netIncome[0] − capitalCostTotal` and the year-0 cumulative
NPV coincides with the year-0 cumulative undiscounted cash flow. -/
theorem c10_year_zero_identity (i : ScenarioInputs) (h : 1 ≤ i.forecastYears) :
    (discounted_cashflow i).getD 0 0 =
      (net_income i).getD 0 0 - capital_cost_total i ∧
    (cumulative_npv i).getD 0 0 = (cumulative_cashflow i).getD 0 0 := by
  have h0 : 0 < i.forecastYears := h
  have hdisc : discF i 0 = (net_income i).getD 0 0 - capital_cost_total i := by
    unfold discF cashF
    simp
  constructor
  · rw [discounted_cashflow_eq, getD_map_range _ h0, hdisc]
  · rw [cumulative_npv_eq, cumulative_cashflow_eq, getD_map_range _ h0,
      getD_map_range _ h0]
    unfold cnpvF ccF
    rw [net_income_eq, ← List.map_take, List.take_range, Nat.min_eq_left h]
    have hr1 : List.range 1 = [0] := rfl
    simp only [hr1, List.map_cons, List.map_nil, List.sum_cons,
      List.sum_nil, add_zero]
    rw [hdisc, net_income_eq, getD_map_range _ h0]

/-! ## Witnesses at concrete inputs -/

/-- A zero-growth variant of the default inputs, for the constant-utilization
part of claim C8. -/
def exInputZeroGrowth : ScenarioInputs := { exInput with annualGrowth := 0 }

theorem valid_exInput : Valid exInput := by
  norm_num [Valid, exInput]

theorem valid_exInputZeroGrowth : Valid exInputZeroGrowth := by
  norm_num [Valid, exInputZeroGrowth, exInput]

/-- Witness for C1 at the default inputs and year index 3. -/
theorem c1_dcf_series_witness :
    Valid exInput ∧ (3 : ℕ) < exInput.forecastYears ∧
    ((discounted_cashflow exInput).getD 3 0 =
      (if (3 : ℕ) = 0 then (net_income exInput).getD 0 0 - capital_cost_total exInput
       else (net_income exInput).getD 3 0) / (1 + exInput.discountRate) ^ (3 : ℕ) ∧
     (cumulative_npv exInput).getD 3 0 = ((discounted_cashflow exInput).take 4).sum ∧
     (cumulative_cashflow exInput).getD 3 0 =
       ((net_income exInput).take 4).sum - capital_cost_total exInput) :=
  ⟨valid_exInput, by decide, c1_dcf_series exInput valid_exInput 3 (by decide)⟩

/-- Witness for C2 at the default inputs and year index 3. -/
theorem c2_ramped_trajectory_witness :
    Valid exInput ∧ (3 : ℕ) < exInput.forecastYears ∧
    ((utilization_by_year exInput).getD 3 0 =
      min (exInput.initialUtilization * (1 + exInput.annualGrowth) ^ (3 : ℕ))
        exInput.maxUtilization ∧
     (visits_per_year exInput).getD 3 0 =
      exInput.numChairs * exInput.visitsPerChairPerDay * exInput.daysPerYear *
        (utilization_by_year exInput).getD 3 0) :=
  ⟨valid_exInput, by decide, c2_ramped_trajectory exInput valid_exInput 3 (by decide)⟩

/-- Witness for C3 at the default inputs. -/
theorem c3_final_npv_witness :
    Valid exInput ∧
    (final_npv exInput = (cumulative_npv exInput).getLastD 0 ∧
     final_npv exInput = (discounted_cashflow exInput).sum ∧
     (is_profitable exInput = true ↔ 0 < final_npv exInput)) :=
  ⟨valid_exInput, c3_final_npv exInput valid_exInput⟩

/-- Witness for C4 at the default inputs: the capital cost comes out to the
1,200,000 of the spec's concrete scenario. -/
theorem c4_capital_cost_witness :
    Valid exInput ∧ capital_cost_total exInput = 1200000 := by
  refine ⟨valid_exInput, ?_⟩
  rw [c4_capital_cost exInput valid_exInput]
  norm_num [exInput]

/-- Witness for C5 at the default inputs and year index 3. -/
theorem c5_staffing_witness :
    Valid exInput ∧ (3 : ℕ) < exInput.forecastYears ∧
    (rn_fte_required exInput =
      ((⌈(exInput.numChairs / exInput.chairsPerRn) * exInput.shiftsPerDay⌉ : ℤ) : ℚ) ∧
     rn_cost_total exInput = rn_fte_required exInput * exInput.rnCost ∧
     (operating_costs exInput).getD 3 0 =
       rn_cost_total exInput + exInput.overheadCost + (supply_costs exInput).getD 3 0) := by
  have h := c5_staffing exInput valid_exInput
  exact ⟨valid_exInput, by decide, h.1, h.2.1, h.2.2 3 (by decide)⟩

/-- Witness for C6 at the default inputs and year index 2. -/
theorem c6_per_year_financials_witness :
    Valid exInput ∧ (2 : ℕ) < exInput.forecastYears ∧
    ((revenue exInput).getD 2 0 =
      (visits_per_year exInput).getD 2 0 * exInput.reimbursement ∧
     (supply_costs exInput).getD 2 0 =
       (visits_per_year exInput).getD 2 0 * exInput.supplyCostPerVisit ∧
     (operating_costs exInput).getD 2 0 =
       rn_cost_total exInput + exInput.overheadCost + (supply_costs exInput).getD 2 0 ∧
     (net_income exInput).getD 2 0 =
       (revenue exInput).getD 2 0 - (operating_costs exInput).getD 2 0) :=
  ⟨valid_exInput, by decide, c6_per_year_financials exInput valid_exInput 2 (by decide)⟩

/-- Witness for C8 at the zero-growth default inputs and year index 2. -/
theorem c8_utilization_monotone_witness :
    Valid exInputZeroGrowth ∧ 0 ≤ exInputZeroGrowth.annualGrowth ∧
    exInputZeroGrowth.initialUtilization ≤ exInputZeroGrowth.maxUtilization ∧
    (utilization_by_year exInputZeroGrowth).getD 2 0 ≤
      (utilization_by_year exInputZeroGrowth).getD 3 0 ∧
    (utilization_by_year exInputZeroGrowth).getD 2 0 ≤ exInputZeroGrowth.maxUtilization ∧
    (utilization_by_year exInputZeroGrowth).getD 2 0 =
      exInputZeroGrowth.initialUtilization := by
  have h := c8_utilization_monotone exInputZeroGrowth valid_exInputZeroGrowth
    (by norm_num [exInputZeroGrowth, exInput]) (by norm_num [exInputZeroGrowth, exInput]) 2
  exact ⟨valid_exInputZeroGrowth, by norm_num [exInputZeroGrowth, exInput],
    by norm_num [exInputZeroGrowth, exInput], h.1 (by decide), h.2.1 (by decide),
    h.2.2 (by norm_num [exInputZeroGrowth, exInput]) (by decide)⟩

/-- Witness for C9 at the default inputs, rate 0 and year index 3, with the
length conclusion instantiated at each of the three modes. -/
theorem c9_three_modes_witness :
    (3 : ℕ) < exInput.forecastYears ∧
    (visitsTrajectory UtilizationMode.RAMPED 0 exInput = visits_per_year exInput ∧
     (visitsTrajectory UtilizationMode.RAMPED 0 exInput).length = exInput.forecastYears ∧
     (visitsTrajectory UtilizationMode.GROWTH_ONLY 0 exInput).length =
       exInput.forecastYears ∧
     (visitsTrajectory UtilizationMode.FIXED_WITH_GROWTH 0 exInput).length =
       exInput.forecastYears ∧
     (visitsTrajectory UtilizationMode.GROWTH_ONLY 0 exInput).getD 3 0 =
       (visitsTrajectory UtilizationMode.GROWTH_ONLY 0 exInput).getD 0 0 *
         (1 + exInput.annualGrowth) ^ (3 : ℕ)) := by
  have h := c9_three_modes exInput 0 3 (by decide)
  exact ⟨by decide, h.1, h.2.1 UtilizationMode.RAMPED, h.2.1 UtilizationMode.GROWTH_ONLY,
    h.2.1 UtilizationMode.FIXED_WITH_GROWTH, h.2.2⟩

/-- Witness for C10 at the default inputs. -/
theorem c10_year_zero_identity_witness :
    1 ≤ exInput.forecastYears ∧
    ((discounted_cashflow exInput).getD 0 0 =
      (net_income exInput).getD 0 0 - capital_cost_total exInput ∧
     (cumulative_npv exInput).getD 0 0 = (cumulative_cashflow exInput).getD 0 0) :=
  ⟨by decide, c10_year_zero_identity exInput (by decide)⟩

end InfusionROI
